import Mathlib

/-!
Verification of the exchange-calculator web API (`api_server.py`).

The HTTP handlers `get_rates`, `calculate` and `static_files` are embedded
as pure Lean functions.  Python floats are modelled as exact rationals (ℚ);
a Python exception is an `Except.error` carrying the exception message, and
the `try ... except` wrapper of each handler becomes a `match` on the
`Except` value.  The computational modules `calculator.py` and
`broker_detailed.py` are imported by the server but are not part of the
provided source; the handlers are therefore parameterised over the
operation tables those modules provide, and concrete instances used in
witnesses are modelled from the specification (marked as such).
-/

/-- A JSON value, as produced by Flask `jsonify`.  Objects keep the
insertion order of the Python dict that produced them. -/
inductive JValue where
  | num (q : ℚ)
  | str (s : String)
  | obj (fields : List (String × JValue))

/-- A response body: either a JSON document (from `jsonify`) or a plain
text/file body (the static-file route returns raw strings). -/
inductive Body where
  | json (j : JValue)
  | text (s : String)

/-- An HTTP response: status code and body. -/
structure HttpResponse where
  status : Nat
  body : Body

/-- The rate snapshot returned by `ExchangeRateProvider.get_all_rates()`:
the `usdt_thb` and `rub_usdt` quotes. -/
structure Rates where
  usdt_thb : ℚ
  rub_usdt : ℚ

/-- The JSON body of a `POST /api/calculate` request.  Each field is
`none` when absent from the request; `data.get(key, default)` becomes
`Option.getD`. -/
structure ReqData where
  method : Option String
  scenario : Option String
  direction : Option String
  amount : Option ℚ
  custom_rub_usdt : Option ℚ
  commission_level : Option String

/-- The eight operations of a `BrokerCalculatorDetailed` instance
(`broker_detailed.py`, constructed from `usdt_thb`, `custom_rub_usdt`,
`commission_level`); the server dispatches on scenario and direction.
Each operation may raise, hence `Except`. -/
structure BrokerOps where
  rub_to_thb_target : ℚ → Except String JValue
  rub_to_thb_amount : ℚ → Except String JValue
  thb_to_usdt_target : ℚ → Except String JValue
  thb_to_usdt_amount : ℚ → Except String JValue
  usdt_to_thb_target : ℚ → Except String JValue
  usdt_to_thb_amount : ℚ → Except String JValue

/-- The two operations of an `ExchangeCalculator` instance
(`calculator.py`, constructed from `usdt_thb` and `rub_usdt`). -/
structure DoverkaOps where
  rub_to_thb : ℚ → Except String JValue
  thb_to_rub : ℚ → Except String JValue

/-- Handler of `GET /api/rates` (`api_server.py` lines 26-49): on a
successful fetch, 200 with the two rates and a timestamp; on any
exception, 500 with the error message and the fallback rates
31.16 / 84.2271. -/
def get_rates (fetch : Except String Rates) (ts : String) : HttpResponse :=
  match fetch with
  | .ok rates =>
      ⟨200, .json (.obj [("usdt_thb", .num rates.usdt_thb),
                         ("rub_usdt", .num rates.rub_usdt),
                         ("timestamp", .str ts)])⟩
  | .error e =>
      ⟨500, .json (.obj [("error", .str e),
                         ("usdt_thb", .num (3116 / 100)),
                         ("rub_usdt", .num (842271 / 10000))])⟩

/-- `jsonify(result), 200`. -/
def ok200 (j : JValue) : HttpResponse :=
  ⟨200, .json j⟩

/-- The body of the `try:` block of the `/api/calculate` handler
(`api_server.py` lines 70-124).  `mkBroker` is the
`BrokerCalculatorDetailed` constructor, `mkDoverka` the
`ExchangeCalculator` constructor, `fetch` the outcome of
`ExchangeRateProvider.get_all_rates()`.  An `Except.error` is an
uncaught Python exception escaping the block; `Except.ok` carries the
response returned inside the block (including the two 400 returns). -/
def calculateCore (mkBroker : ℚ → ℚ → String → BrokerOps)
    (mkDoverka : ℚ → ℚ → DoverkaOps)
    (fetch : Except String Rates) (data : ReqData) :
    Except String HttpResponse :=
  let method := data.method.getD "doverka"
  let scenario := data.scenario.getD "rub-to-thb"
  let direction := data.direction.getD "amount"
  let amount := data.amount.getD 0
  if amount ≤ 0 then
    .ok ⟨400, .json (.obj [("error", .str "Invalid amount")])⟩
  else
    match fetch with
    | .error e => .error e
    | .ok rates =>
        if method = "broker" then
          let custom := data.custom_rub_usdt.getD (809 / 10)
          let level := data.commission_level.getD "medium"
          let bc := mkBroker rates.usdt_thb custom level
          if scenario = "rub-to-thb" then
            (if direction = "target" then bc.rub_to_thb_target amount
             else bc.rub_to_thb_amount amount).map ok200
          else if scenario = "thb-to-usdt" then
            (if direction = "target" then bc.thb_to_usdt_target amount
             else bc.thb_to_usdt_amount amount).map ok200
          else if scenario = "usdt-to-thb" then
            (if direction = "target" then bc.usdt_to_thb_target amount
             else bc.usdt_to_thb_amount amount).map ok200
          else
            .ok ⟨400, .json (.obj [("error", .str "Invalid scenario for broker")])⟩
        else
          let dc := mkDoverka rates.usdt_thb rates.rub_usdt
          if scenario = "rub-to-thb" then
            (dc.rub_to_thb amount).map ok200
          else
            (dc.thb_to_rub amount).map ok200

/-- Handler of `POST /api/calculate`: the `try:` body, with the
`except Exception as e: return jsonify({'error': str(e)}), 500`
wrapper (`api_server.py` lines 126-127). -/
def calculate (mkBroker : ℚ → ℚ → String → BrokerOps)
    (mkDoverka : ℚ → ℚ → DoverkaOps)
    (fetch : Except String Rates) (data : ReqData) : HttpResponse :=
  match calculateCore mkBroker mkDoverka fetch data with
  | .ok resp => resp
  | .error e => ⟨500, .json (.obj [("error", .str e)])⟩

/-- `true` iff the second list is an initial segment of the first;
`strStarts` and `strEnds` are the (kernel-computable) equivalents of
Python `str.startswith` / `str.endswith` on the character lists of the
strings. -/
def listStarts : List Char → List Char → Bool
  | _, [] => true
  | [], _ :: _ => false
  | c :: cs, d :: ds => c == d && listStarts cs ds

/-- Python `s.startswith(pat)`. -/
def strStarts (s pat : String) : Bool :=
  listStarts s.data pat.data

/-- Python `s.endswith(pat)`. -/
def strEnds (s pat : String) : Bool :=
  listStarts s.data.reverse pat.data.reverse

/-- The static-file whitelist (`api_server.py` line 168). -/
def allowed_extensions : List String :=
  [".css", ".js", ".png", ".jpg", ".jpeg", ".gif", ".svg", ".ico"]

/-- Handler of the catch-all `GET /<path:filename>` route
(`api_server.py` lines 160-175).  `sendFile` models
`app.send_static_file`: `some content` on success, `none` when it
raises (missing file). -/
def static_files (sendFile : String → Option String) (filename : String) :
    HttpResponse :=
  if strStarts filename "api" then
    ⟨404, .text ""⟩
  else if ¬ (allowed_extensions.any fun ext => strEnds filename ext) then
    ⟨404, .text ""⟩
  else
    match sendFile filename with
    | some content => ⟨200, .text content⟩
    | none => ⟨404, .text ""⟩

/-- `true` iff the body is a JSON object having the given key. -/
def bodyHasKey (b : Body) (k : String) : Bool :=
  match b with
  | .json (.obj fields) => fields.any fun p => p.1 == k
  | _ => false

/-- Modelled from the spec: `broker_detailed.py` (class
`BrokerCalculatorDetailed`) is not under src/.  Per §4.3 the instance
combines the market `usdt_thb` rate, the user-supplied
`custom_rub_usdt` rate and a commission percentage selected by tier
from an external configuration table; the `amount` direction solves the
output from a given input through a scenario-specific effective rate,
and the `target` direction solves the required input for a desired
output (its inverse).  The tier table is the parameter `table`. -/
def specBroker (table : String → ℚ) (usdtThb customRubUsdt : ℚ)
    (level : String) : BrokerOps :=
  let fee := table level
  let rubToThbRate := usdtThb / customRubUsdt * (1 - fee)
  let thbToUsdtRate := 1 / usdtThb * (1 - fee)
  let usdtToThbRate := usdtThb * (1 - fee)
  ⟨fun t => .ok (.num (t / rubToThbRate)),
   fun x => .ok (.num (x * rubToThbRate)),
   fun t => .ok (.num (t / thbToUsdtRate)),
   fun x => .ok (.num (x * thbToUsdtRate)),
   fun t => .ok (.num (t / usdtToThbRate)),
   fun x => .ok (.num (x * usdtToThbRate))⟩

/-- Modelled from the spec: `calculator.py` (class `ExchangeCalculator`)
is not under src/.  Per §4.2 doverka mode converts through the two-hop
rate RUB→USDT→THB (or the reverse) from `usdt_thb` and `rub_usdt`; the
commission policy is opaque at the spec layer and is modelled as the
bare two-hop conversion. -/
def specDoverka (usdtThb rubUsdt : ℚ) : DoverkaOps :=
  ⟨fun a => .ok (.num (a / rubUsdt * usdtThb)),
   fun a => .ok (.num (a / usdtThb * rubUsdt))⟩

/-- A broker-constructor argument for concrete evaluations: every
operation returns the number 0. -/
def zeroBroker : ℚ → ℚ → String → BrokerOps :=
  fun _ _ _ =>
    ⟨fun _ => .ok (.num 0), fun _ => .ok (.num 0), fun _ => .ok (.num 0),
     fun _ => .ok (.num 0), fun _ => .ok (.num 0), fun _ => .ok (.num 0)⟩

/-- A doverka-constructor argument for concrete evaluations: both
operations return the number 0. -/
def zeroDoverka : ℚ → ℚ → DoverkaOps :=
  fun _ _ => ⟨fun _ => .ok (.num 0), fun _ => .ok (.num 0)⟩

/-- The `target` and `amount` operations of one scenario round-trip:
the target operation succeeds with some `y`, and the amount operation
maps `y` back to the original `x`. -/
def roundTrip (tgt amt : ℚ → Except String JValue) (x : ℚ) : Prop :=
  ∃ y, tgt x = .ok (.num y) ∧ amt y = .ok (.num x)

/-- C6: `GET /api/rates` returns 200 with `usdt_thb`, `rub_usdt` and the
timestamp on success, and exactly `{error, usdt_thb: 31.16,
rub_usdt: 84.2271}` with status 500 on upstream failure. -/
theorem get_rates_contract :
    (∀ (r : Rates) (ts : String),
      get_rates (.ok r) ts =
        ⟨200, .json (.obj [("usdt_thb", .num r.usdt_thb),
                           ("rub_usdt", .num r.rub_usdt),
                           ("timestamp", .str ts)])⟩) ∧
    (∀ (e : String) (ts : String),
      get_rates (.error e) ts =
        ⟨500, .json (.obj [("error", .str e),
                           ("usdt_thb", .num (3116 / 100)),
                           ("rub_usdt", .num (842271 / 10000))])⟩) :=
  ⟨fun _ _ => rfl, fun _ _ => rfl⟩

/-- C2: whenever the `amount` field parses to a value ≤ 0, the
`/api/calculate` handler answers 400 `{error: "Invalid amount"}`,
whatever the calculator constructors, the fetch outcome and every other
request field. -/
theorem invalid_amount_always_400
    (mkB : ℚ → ℚ → String → BrokerOps) (mkD : ℚ → ℚ → DoverkaOps)
    (fetch : Except String Rates)
    (m s d : Option String) (a : ℚ) (cu : Option ℚ) (cl : Option String)
    (ha : a ≤ 0) :
    calculate mkB mkD fetch (ReqData.mk m s d (some a) cu cl) =
      ⟨400, .json (.obj [("error", .str "Invalid amount")])⟩ := by
  simp [calculate, calculateCore, ha]

theorem invalid_amount_always_400_witness :
    calculate zeroBroker zeroDoverka (.error "down")
        (ReqData.mk (some "broker") (some "usdt-to-thb") (some "target")
          (some (-5)) (some 80) (some "low")) =
      ⟨400, .json (.obj [("error", .str "Invalid amount")])⟩ :=
  invalid_amount_always_400 zeroBroker zeroDoverka (.error "down")
    (some "broker") (some "usdt-to-thb") (some "target") (-5)
    (some 80) (some "low") (by norm_num)

/-- C3: in broker mode, with a positive amount and a successful rate
fetch, any scenario other than the three broker scenarios (including
`thb-to-rub`) answers 400 `{error: "Invalid scenario for broker"}`. -/
theorem broker_invalid_scenario_400
    (mkB : ℚ → ℚ → String → BrokerOps) (mkD : ℚ → ℚ → DoverkaOps)
    (r : Rates) (s : String) (d : Option String) (a : ℚ)
    (cu : Option ℚ) (cl : Option String)
    (ha : 0 < a) (h1 : s ≠ "rub-to-thb") (h2 : s ≠ "thb-to-usdt")
    (h3 : s ≠ "usdt-to-thb") :
    calculate mkB mkD (.ok r)
        (ReqData.mk (some "broker") (some s) d (some a) cu cl) =
      ⟨400, .json (.obj [("error", .str "Invalid scenario for broker")])⟩ := by
  simp [calculate, calculateCore, not_le.mpr ha, h1, h2, h3]

theorem broker_invalid_scenario_400_witness :
    calculate zeroBroker zeroDoverka (.ok (Rates.mk (3116 / 100) (842271 / 10000)))
        (ReqData.mk (some "broker") (some "thb-to-rub") (some "amount")
          (some 100) none none) =
      ⟨400, .json (.obj [("error", .str "Invalid scenario for broker")])⟩ :=
  broker_invalid_scenario_400 zeroBroker zeroDoverka
    (Rates.mk (3116 / 100) (842271 / 10000)) "thb-to-rub" (some "amount")
    100 none none (by norm_num) (by decide) (by decide) (by decide)

/-- C4 counterexample: a doverka request with scenario `thb-to-usdt`
and a positive amount does not get a 400 `InvalidScenario` error — the
handler computes `thb_to_rub` and answers 200 (here with the
spec-modelled `ExchangeCalculator`). -/
theorem doverka_unknown_scenario_returns_200 :
    (calculate zeroBroker specDoverka
        (.ok (Rates.mk (3116 / 100) (842271 / 10000)))
        (ReqData.mk (some "doverka") (some "thb-to-usdt") none
          (some 100) none none)).status = 200 := rfl

/-- C4 amended: doverka mode performs no scenario validation: with a
positive amount and a successful fetch, any scenario other than
`rub-to-thb` (for example `thb-to-usdt` or `usdt-to-thb`) is computed
as `thb_to_rub`, whatever the calculator constructors. -/
theorem doverka_no_scenario_validation
    (mkB : ℚ → ℚ → String → BrokerOps) (mkD : ℚ → ℚ → DoverkaOps)
    (r : Rates) (s : String) (d : Option String) (a : ℚ)
    (cu : Option ℚ) (cl : Option String)
    (ha : 0 < a) (hs : s ≠ "rub-to-thb") :
    calculate mkB mkD (.ok r)
        (ReqData.mk (some "doverka") (some s) d (some a) cu cl) =
      (match ((mkD r.usdt_thb r.rub_usdt).thb_to_rub a).map ok200 with
       | .ok resp => resp
       | .error e => ⟨500, .json (.obj [("error", .str e)])⟩) := by
  simp [calculate, calculateCore, not_le.mpr ha, hs]

theorem doverka_no_scenario_validation_witness :
    calculate zeroBroker zeroDoverka
        (.ok (Rates.mk (3116 / 100) (842271 / 10000)))
        (ReqData.mk (some "doverka") (some "usdt-to-thb") none
          (some 50) none none) =
      (match ((zeroDoverka (3116 / 100) (842271 / 10000)).thb_to_rub 50).map ok200 with
       | .ok resp => resp
       | .error e => ⟨500, .json (.obj [("error", .str e)])⟩) :=
  doverka_no_scenario_validation zeroBroker zeroDoverka
    (Rates.mk (3116 / 100) (842271 / 10000)) "usdt-to-thb" none 50
    none none (by norm_num) (by decide)

/-- C9: in doverka mode the `direction` field is never read: two
requests identical except for `direction` produce the same response,
for every calculator constructor and fetch outcome. -/
theorem doverka_ignores_direction
    (mkB : ℚ → ℚ → String → BrokerOps) (mkD : ℚ → ℚ → DoverkaOps)
    (fetch : Except String Rates)
    (s : Option String) (d1 d2 : Option String) (a : Option ℚ)
    (cu : Option ℚ) (cl : Option String) :
    calculate mkB mkD fetch (ReqData.mk (some "doverka") s d1 a cu cl) =
      calculate mkB mkD fetch (ReqData.mk (some "doverka") s d2 a cu cl) := by
  simp [calculate, calculateCore]

/-- C10: `/api/calculate` fills every missing field with a fixed
default: an all-missing body answers 400 `Invalid amount`; a missing
`method` equals `method = "doverka"`, a missing `scenario` equals
`scenario = "rub-to-thb"`, a missing `direction` equals
`direction = "amount"`, a missing `amount` equals `amount = 0`, a
missing `custom_rub_usdt` equals `custom_rub_usdt = 80.9`, and a
missing `commission_level` equals `commission_level = "medium"`. -/
theorem calculate_field_defaults
    (mkB : ℚ → ℚ → String → BrokerOps) (mkD : ℚ → ℚ → DoverkaOps)
    (fetch : Except String Rates) :
    (calculate mkB mkD fetch (ReqData.mk none none none none none none) =
      ⟨400, .json (.obj [("error", .str "Invalid amount")])⟩) ∧
    (∀ s d a cu cl,
      calculate mkB mkD fetch (ReqData.mk none s d a cu cl) =
        calculate mkB mkD fetch (ReqData.mk (some "doverka") s d a cu cl)) ∧
    (∀ m d a cu cl,
      calculate mkB mkD fetch (ReqData.mk m none d a cu cl) =
        calculate mkB mkD fetch (ReqData.mk m (some "rub-to-thb") d a cu cl)) ∧
    (∀ m s a cu cl,
      calculate mkB mkD fetch (ReqData.mk m s none a cu cl) =
        calculate mkB mkD fetch (ReqData.mk m s (some "amount") a cu cl)) ∧
    (∀ m s d cu cl,
      calculate mkB mkD fetch (ReqData.mk m s d none cu cl) =
        calculate mkB mkD fetch (ReqData.mk m s d (some 0) cu cl)) ∧
    (∀ m s d a cl,
      calculate mkB mkD fetch (ReqData.mk m s d a none cl) =
        calculate mkB mkD fetch (ReqData.mk m s d a (some (809 / 10)) cl)) ∧
    (∀ m s d a cu,
      calculate mkB mkD fetch (ReqData.mk m s d a cu none) =
        calculate mkB mkD fetch (ReqData.mk m s d a cu (some "medium"))) :=
  ⟨rfl, fun _ _ _ _ _ => rfl, fun _ _ _ _ _ => rfl, fun _ _ _ _ _ => rfl,
   fun _ _ _ _ _ => rfl, fun _ _ _ _ _ => rfl, fun _ _ _ _ _ => rfl⟩

/-- C1: for the spec-modelled broker calculator, under positive rates
and a tier fee below 100%, each of the three broker scenarios
round-trips: the `target` operation followed by the `amount` operation
of the same scenario returns the original value (exactly, in the
rational model). -/
theorem broker_round_trip (table : String → ℚ) (u c : ℚ) (l : String)
    (x : ℚ) (hu : 0 < u) (hc : 0 < c) (hf : table l < 1) :
    (roundTrip (specBroker table u c l).rub_to_thb_target
      (specBroker table u c l).rub_to_thb_amount x) ∧
    (roundTrip (specBroker table u c l).thb_to_usdt_target
      (specBroker table u c l).thb_to_usdt_amount x) ∧
    (roundTrip (specBroker table u c l).usdt_to_thb_target
      (specBroker table u c l).usdt_to_thb_amount x) := by
  have hu0 : u ≠ 0 := ne_of_gt hu
  have hc0 : c ≠ 0 := ne_of_gt hc
  have hf0 : (1 : ℚ) - table l ≠ 0 := sub_ne_zero.mpr (ne_of_gt hf)
  refine ⟨⟨x / (u / c * (1 - table l)), rfl, ?_⟩,
          ⟨x / (1 / u * (1 - table l)), rfl, ?_⟩,
          ⟨x / (u * (1 - table l)), rfl, ?_⟩⟩ <;>
    simp only [specBroker] <;> congr 2 <;> field_simp

theorem broker_round_trip_witness :
    (0 : ℚ) < 3116 / 100 ∧ (0 : ℚ) < 809 / 10 ∧
      (fun _ : String => (1 : ℚ) / 50) "medium" < 1 ∧
      (roundTrip
        (specBroker (fun _ => 1 / 50) (3116 / 100) (809 / 10)
          "medium").rub_to_thb_target
        (specBroker (fun _ => 1 / 50) (3116 / 100) (809 / 10)
          "medium").rub_to_thb_amount 1000 ∧
       roundTrip
        (specBroker (fun _ => 1 / 50) (3116 / 100) (809 / 10)
          "medium").thb_to_usdt_target
        (specBroker (fun _ => 1 / 50) (3116 / 100) (809 / 10)
          "medium").thb_to_usdt_amount 1000 ∧
       roundTrip
        (specBroker (fun _ => 1 / 50) (3116 / 100) (809 / 10)
          "medium").usdt_to_thb_target
        (specBroker (fun _ => 1 / 50) (3116 / 100) (809 / 10)
          "medium").usdt_to_thb_amount 1000) :=
  ⟨by norm_num, by norm_num, by norm_num,
   broker_round_trip (fun _ => 1 / 50) (3116 / 100) (809 / 10) "medium"
     1000 (by norm_num) (by norm_num) (by norm_num)⟩

/-- C7: any exception escaping the `try:` body of `/api/calculate`
(other than the two handled 400 returns, which are not exceptions)
yields 500 with the exception message as the `error` field. -/
theorem calculate_exception_500
    (mkB : ℚ → ℚ → String → BrokerOps) (mkD : ℚ → ℚ → DoverkaOps)
    (fetch : Except String Rates) (data : ReqData) (e : String)
    (h : calculateCore mkB mkD fetch data = .error e) :
    calculate mkB mkD fetch data =
      ⟨500, .json (.obj [("error", .str e)])⟩ := by
  simp [calculate, h]

theorem calculate_exception_500_witness :
    calculate zeroBroker zeroDoverka (.error "Binance timeout")
        (ReqData.mk none none none (some 7) none none) =
      ⟨500, .json (.obj [("error", .str "Binance timeout")])⟩ :=
  calculate_exception_500 zeroBroker zeroDoverka (.error "Binance timeout")
    (ReqData.mk none none none (some 7) none none) "Binance timeout" rfl

/-- C5 counterexample: when the rate fetch fails during
`POST /api/calculate`, the handler does not substitute the fallback
snapshot: the 500 body is exactly `{error: message}` and carries no
`usdt_thb` field at all. -/
theorem calculate_fetch_error_no_fallback :
    calculate zeroBroker zeroDoverka (.error "upstream down")
        (ReqData.mk none none none (some 1000) none none) =
      ⟨500, .json (.obj [("error", .str "upstream down")])⟩ ∧
    bodyHasKey
      (calculate zeroBroker zeroDoverka (.error "upstream down")
        (ReqData.mk none none none (some 1000) none none)).body
      "usdt_thb" = false :=
  ⟨rfl, rfl⟩

/-- C5 amended: only the `/api/rates` handler substitutes the fallback
snapshot (31.16 / 84.2271) on a failed fetch; `/api/calculate` with a
positive amount answers a plain 500 `{error: message}` without the
fallback values. -/
theorem fallback_only_in_rates :
    (∀ (e : String) (ts : String),
      get_rates (.error e) ts =
        ⟨500, .json (.obj [("error", .str e),
                           ("usdt_thb", .num (3116 / 100)),
                           ("rub_usdt", .num (842271 / 10000))])⟩) ∧
    (∀ (mkB : ℚ → ℚ → String → BrokerOps) (mkD : ℚ → ℚ → DoverkaOps)
       (m s d : Option String) (a : ℚ) (cu : Option ℚ) (cl : Option String)
       (e : String), 0 < a →
      calculate mkB mkD (.error e) (ReqData.mk m s d (some a) cu cl) =
        ⟨500, .json (.obj [("error", .str e)])⟩) := by
  refine ⟨fun _ _ => rfl, fun mkB mkD m s d a cu cl e ha => ?_⟩
  simp [calculate, calculateCore, not_le.mpr ha]

theorem fallback_only_in_rates_witness :
    get_rates (.error "timeout") "2026-10-12T00:00:00" =
      ⟨500, .json (.obj [("error", .str "timeout"),
                         ("usdt_thb", .num (3116 / 100)),
                         ("rub_usdt", .num (842271 / 10000))])⟩ ∧
    calculate zeroBroker zeroDoverka (.error "timeout")
        (ReqData.mk (some "broker") none none (some 3) none none) =
      ⟨500, .json (.obj [("error", .str "timeout")])⟩ :=
  ⟨fallback_only_in_rates.1 "timeout" "2026-10-12T00:00:00",
   fallback_only_in_rates.2 zeroBroker zeroDoverka (some "broker") none
     none 3 none none "timeout" (by norm_num)⟩

/-- C8: the catch-all static route answers 404 with an empty body for
every filename starting with `api` and for every filename whose
extension is outside the whitelist; it serves a file (status 200) only
for a non-`api` filename with a whitelisted extension that the file
store resolves. -/
theorem static_files_whitelist (sendFile : String → Option String)
    (fn : String) :
    (strStarts fn "api" = true → static_files sendFile fn = ⟨404, .text ""⟩) ∧
    ((allowed_extensions.any fun ext => strEnds fn ext) = false →
      static_files sendFile fn = ⟨404, .text ""⟩) ∧
    ((static_files sendFile fn).status = 200 →
      strStarts fn "api" = false ∧
      (allowed_extensions.any fun ext => strEnds fn ext) = true ∧
      ∃ content, sendFile fn = some content ∧
        static_files sendFile fn = ⟨200, .text content⟩) := by
  refine ⟨fun h1 => by simp [static_files, h1], fun h2 => ?_, fun h3 => ?_⟩
  · unfold static_files
    split
    · rfl
    · simp [h2]
  · unfold static_files at h3 ⊢
    split at h3
    · exact absurd h3 (by norm_num)
    · split at h3
      · exact absurd h3 (by norm_num)
      · rename_i hapi hext
        refine ⟨Bool.not_eq_true _ ▸ hapi, Decidable.of_not_not hext, ?_⟩
        split at h3
        · rename_i content hc
          exact ⟨content, hc, by simp [hapi, Decidable.of_not_not hext, hc]⟩
        · exact absurd h3 (by norm_num)

theorem static_files_whitelist_witness :
    static_files (fun _ => some "body") "api/secret.css" = ⟨404, .text ""⟩ ∧
    static_files (fun _ => some "body") "setup.exe" = ⟨404, .text ""⟩ ∧
    (strStarts "style.css" "api" = false ∧
     (allowed_extensions.any fun ext => strEnds "style.css" ext) = true ∧
     ∃ content, (fun _ : String => some "body") "style.css" = some content ∧
       static_files (fun _ => some "body") "style.css" = ⟨200, .text content⟩) :=
  ⟨(static_files_whitelist (fun _ => some "body") "api/secret.css").1 (by decide),
   (static_files_whitelist (fun _ => some "body") "setup.exe").2.1 (by decide),
   (static_files_whitelist (fun _ => some "body") "style.css").2.2 (by decide)⟩
